import Mathlib

/-!
Verification of the RustPress "Hello World" plugin (`src/lib.rs`) against its
natural-language specification.

The plugin source lives in `src/lib.rs`.  The host-side types it consumes
(`HookRegistry`, `AppContext`, `PluginState`, `PluginInfo`) belong to the
`rustpress_core` crate, which is not part of this repository's sources; those
are modelled from the specification (sections 3, 4.2, 4.3 and 6 of spec.md)
and are marked `Modelled from the spec:` below.

Embedding conventions:
* interior mutability (`RwLock` fields, `&self` methods that mutate) becomes
  explicit state passing: a method taking `&self` and mutating becomes a
  function `HelloWorldPlugin → ... → HelloWorldPlugin`;
* `async fn ... -> Result<()>` becomes a pure function returning the new
  plugin, the new context and an `Except String Unit` (the reference methods
  never suspend);
* `Utc::now().format("%B %d, %Y")` is modelled as an explicit `now : String`
  argument supplied by the environment at dispatch time, threaded to every
  handler by the registry;
* `println!` inside the `wp_head` action is modelled by the action returning
  the printed string.
-/

/-- Plugin settings (`HelloWorldSettings` in `src/lib.rs`): plain structured
value with a greeting text, a show-date flag and custom CSS. -/
structure HelloWorldSettings where
  greeting_text : String
  show_date : Bool
  custom_css : String
  deriving DecidableEq, Repr

/-- The `impl Default for HelloWorldSettings` in `src/lib.rs`. -/
def HelloWorldSettings.default : HelloWorldSettings :=
  { greeting_text := "Hello, World!"
    show_date := true
    custom_css := "" }

/-- Modelled from the spec: `PluginState` of `rustpress_core` — enum
`{Inactive, Active}` (spec §3 "Plugin State"). -/
inductive PluginState where
  | Inactive : PluginState
  | Active : PluginState
  deriving DecidableEq, Repr

/-- Modelled from the spec: a semantic version, standing in for
`semver::Version` — only `Version::new(major, minor, patch)` is used. -/
structure Version where
  major : Nat
  minor : Nat
  patch : Nat
  deriving DecidableEq, Repr

/-- Modelled from the spec: `PluginInfo` of `rustpress_core` — immutable
identity `{id, display_name, version, description, author}` (spec §3). -/
structure PluginInfo where
  id : String
  name : String
  version : Version
  description : String
  author : String
  deriving DecidableEq, Repr

/-- Modelled from the spec: `PluginInfo::new(id, name, version)` constructor;
description and author start empty and are filled by the builder methods. -/
def PluginInfo.new (id name : String) (version : Version) : PluginInfo :=
  { id := id, name := name, version := version, description := "", author := "" }

/-- Modelled from the spec: the `with_description` builder method. -/
def PluginInfo.with_description (info : PluginInfo) (d : String) : PluginInfo :=
  { info with description := d }

/-- Modelled from the spec: the `with_author` builder method. -/
def PluginInfo.with_author (info : PluginInfo) (a : String) : PluginInfo :=
  { info with author := a }

/-- Modelled from the spec: a handler registered in the Hook Registry — either
a filter (pure transform of a value) or an action (side effect only).  Both
receive the `now` string (the environment's formatted current date) because
the shortcode closure calls `Utc::now()` at dispatch time; the action's
`println!` output is its return value (spec §3 "Hook Registration Entry"). -/
inductive Handler where
  | filter : (String → String → String) → Handler
  | action : (String → String) → Handler

/-- Whether a handler is a filter (as opposed to an action). -/
def Handler.isFilter : Handler → Bool
  | .filter _ => true
  | .action _ => false

/-- Modelled from the spec: one registration entry of the Hook Registry —
`(hook_name, priority, handler)`; uniqueness is not required and ties among
equal priorities break by insertion order (spec §3). -/
structure HookEntry where
  hook_name : String
  priority : Nat
  handler : Handler

/-- The observable shape of an entry: name, priority, and filter/action kind. -/
def HookEntry.key (e : HookEntry) : String × Nat × Bool :=
  (e.hook_name, e.priority, e.handler.isFilter)

/-- Modelled from the spec: the Hook Registry of `rustpress_core` — a dispatch
table mapping hook names to handlers; the entry list is kept in registration
order, which provides the stable tie-break (spec §4.2, §5). -/
structure HookRegistry where
  entries : List HookEntry

/-- A registry with no handlers registered. -/
def HookRegistry.empty : HookRegistry := { entries := [] }

/-- Modelled from the spec: `add_filter(name, handler, priority)` appends a
filter entry; no error conditions (spec §4.2).  Argument order follows the
call sites in `src/lib.rs` (`hooks.add_filter("name", closure, priority)`). -/
def HookRegistry.add_filter (r : HookRegistry) (name : String)
    (f : String → String → String) (priority : Nat) : HookRegistry :=
  { entries := r.entries ++ [⟨name, priority, Handler.filter f⟩] }

/-- Modelled from the spec: `add_action(name, handler, priority)` appends an
action entry (spec §4.2). -/
def HookRegistry.add_action (r : HookRegistry) (name : String)
    (a : String → String) (priority : Nat) : HookRegistry :=
  { entries := r.entries ++ [⟨name, priority, Handler.action a⟩] }

/-- Modelled from the spec: `apply_filters(name, initial)` folds `initial`
through every filter registered under `name` in ascending priority order, ties
broken by registration order (stable sort over the registration-ordered entry
list); with no handlers it returns `initial` unchanged (spec §4.2, §5). -/
def HookRegistry.apply_filters (r : HookRegistry) (name : String)
    (now initial : String) : String :=
  let matching := r.entries.filter
    (fun e => e.hook_name == name && e.handler.isFilter)
  let sorted := matching.mergeSort (fun a b => decide (a.priority ≤ b.priority))
  sorted.foldl
    (fun v e =>
      match e.handler with
      | .filter f => f now v
      | .action _ => v)
    initial

/-- Modelled from the spec: `run_action(name)` invokes every action registered
under `name` in ascending priority order, ties broken by registration order;
the list of printed outputs models the side effects in order (spec §4.2). -/
def HookRegistry.run_action (r : HookRegistry) (name : String)
    (now : String) : List String :=
  let matching := r.entries.filter
    (fun e => e.hook_name == name && !e.handler.isFilter)
  let sorted := matching.mergeSort (fun a b => decide (a.priority ≤ b.priority))
  sorted.foldl
    (fun out e =>
      match e.handler with
      | .filter _ => out
      | .action a => out ++ [a now])
    []

/-- Modelled from the spec: the host `AppContext`, from which the plugin
retrieves shared services by type; `ctx.get::<Arc<RwLock<HookRegistry>>>()`
is modelled as this optional registry field — absence of the service must be
handled gracefully (spec §6). -/
structure AppContext where
  hookRegistry : Option HookRegistry

/-- The Hello World plugin (`HelloWorldPlugin` in `src/lib.rs`): immutable
info plus `RwLock`-held state and settings, modelled as plain fields under
state passing.  The Rust `settings()` accessor returns a clone of the settings
value; in this value-based embedding it is the field projection `.settings`. -/
structure HelloWorldPlugin where
  info : PluginInfo
  state : PluginState
  settings : HelloWorldSettings

/-- `HelloWorldPlugin::new` from `src/lib.rs`: builds the plugin info and
starts `Inactive` with default settings. -/
def HelloWorldPlugin.new : HelloWorldPlugin :=
  let info := ((PluginInfo.new "hello-world" "Hello World" ⟨1, 0, 0⟩).with_description
      "A simple example plugin that adds a greeting shortcode and widget").with_author
      "RustPress Team"
  { info := info
    state := PluginState.Inactive
    settings := HelloWorldSettings.default }

/-- `HelloWorldPlugin::update_settings` from `src/lib.rs`: wholesale replace
of the settings value (`*self.settings.write() = settings`). -/
def HelloWorldPlugin.update_settings (p : HelloWorldPlugin)
    (settings : HelloWorldSettings) : HelloWorldPlugin :=
  { p with settings := settings }

/-- The closure registered by `register_shortcodes` in `src/lib.rs`, with the
settings snapshot it captured made explicit; `now` stands for
`Utc::now().format("%B %d, %Y")`, computed at dispatch time. -/
def shortcodeHelloHandler (settings : HelloWorldSettings)
    (now _content : String) : String :=
  let output := "<div class=\"hello-world-greeting\">" ++ settings.greeting_text ++ "</div>"
  if settings.show_date then
    output ++ ("<div class=\"hello-world-date\">Today is " ++ now ++ "</div>")
  else
    output

/-- The closure registered by `register_widgets` in `src/lib.rs`, with the
captured settings snapshot made explicit; it ignores its content argument. -/
def widgetHelloWorldHandler (settings : HelloWorldSettings)
    (_now _content : String) : String :=
  "<div class=\"widget hello-world-widget\">
                    <h3 class=\"widget-title\">Greeting</h3>
                    <div class=\"widget-content\">
                        <p>" ++ settings.greeting_text ++ "</p>
                    </div>
                </div>"

/-- The default CSS text embedded in `add_head_css` in `src/lib.rs` (braces
written as escapes). -/
def defaultHeadCss : String :=
  "
                .hello-world-greeting \x7b
                    padding: 20px;
                    background: linear-gradient(135deg, #667eea 0%, #764ba2 100%);
                    color: white;
                    border-radius: 8px;
                    margin: 20px 0;
                    font-size: 1.5em;
                    text-align: center;
                \x7d
                .hello-world-date \x7b
                    text-align: center;
                    color: #666;
                    font-style: italic;
                \x7d
                .hello-world-widget \x7b
                    background: #f5f5f5;
                    padding: 15px;
                    border-radius: 4px;
                \x7d
                "

/-- The action closure registered by `add_head_css` in `src/lib.rs`: prints a
`<style>` block holding either the default CSS or the snapshot's custom CSS;
the printed string is the return value. -/
def wpHeadAction (settings : HelloWorldSettings) (_now : String) : String :=
  let css := if settings.custom_css.isEmpty then defaultHeadCss
    else settings.custom_css
  "<style>" ++ css ++ "</style>"

/-- The closure registered by `add_content_filter` in `src/lib.rs`: appends a
footer to the content; it captures no settings. -/
def theContentHandler (_now content : String) : String :=
  content ++ "
                <div class=\"hello-world-footer\" style=\"font-size: 0.8em; color: #999; margin-top: 20px; padding-top: 10px; border-top: 1px solid #eee;\">
                    Powered by Hello World Plugin
                </div>"

/-- `HelloWorldPlugin::register_shortcodes` from `src/lib.rs`: clones the
current settings (`self.settings.read().clone()`) and registers the `[hello]`
shortcode filter at priority 10 over that snapshot. -/
def HelloWorldPlugin.register_shortcodes (p : HelloWorldPlugin)
    (hooks : HookRegistry) : HookRegistry :=
  let settings := p.settings
  hooks.add_filter "shortcode_hello" (shortcodeHelloHandler settings) 10

/-- `HelloWorldPlugin::register_widgets` from `src/lib.rs`: clones the current
settings and registers the widget filter at priority 10 over that snapshot. -/
def HelloWorldPlugin.register_widgets (p : HelloWorldPlugin)
    (hooks : HookRegistry) : HookRegistry :=
  let settings := p.settings
  hooks.add_filter "widget_hello_world" (widgetHelloWorldHandler settings) 10

/-- `HelloWorldPlugin::add_head_css` from `src/lib.rs`: clones the current
settings and registers the `wp_head` action at priority 10 over it. -/
def HelloWorldPlugin.add_head_css (p : HelloWorldPlugin)
    (hooks : HookRegistry) : HookRegistry :=
  let settings := p.settings
  hooks.add_action "wp_head" (wpHeadAction settings) 10

/-- `HelloWorldPlugin::add_content_filter` from `src/lib.rs`: registers the
footer filter on `the_content` at priority 99 ("low priority to run last"). -/
def HelloWorldPlugin.add_content_filter (_p : HelloWorldPlugin)
    (hooks : HookRegistry) : HookRegistry :=
  hooks.add_filter "the_content" theContentHandler 99

/-- `HelloWorldPlugin::activate` from `src/lib.rs`: if the context carries the
hook-registry service, register shortcodes, widgets, head CSS and the content
filter (in that order); then set the state to `Active` and return `Ok(())`.
Absence of the registry skips registration without failing. -/
def HelloWorldPlugin.activate (p : HelloWorldPlugin) (ctx : AppContext) :
    HelloWorldPlugin × AppContext × Except String Unit :=
  let resCtx :=
    match ctx.hookRegistry with
    | some registry =>
        let registry := p.register_shortcodes registry
        let registry := p.register_widgets registry
        let registry := p.add_head_css registry
        let registry := p.add_content_filter registry
        { ctx with hookRegistry := some registry }
    | none => ctx
  ({ p with state := PluginState.Active }, resCtx, Except.ok ())

/-- `HelloWorldPlugin::deactivate` from `src/lib.rs`: sets the state to
`Inactive` and returns `Ok(())`; the registered hooks are NOT removed (the
source only comments that cleanup "would happen here"). -/
def HelloWorldPlugin.deactivate (p : HelloWorldPlugin) (ctx : AppContext) :
    HelloWorldPlugin × AppContext × Except String Unit :=
  ({ p with state := PluginState.Inactive }, ctx, Except.ok ())

/-- `HelloWorldPlugin::on_startup` from `src/lib.rs`: a no-op that returns
`Ok(())`. -/
def HelloWorldPlugin.on_startup (p : HelloWorldPlugin) (ctx : AppContext) :
    HelloWorldPlugin × AppContext × Except String Unit :=
  (p, ctx, Except.ok ())

/-- `HelloWorldPlugin::on_shutdown` from `src/lib.rs`: a no-op that returns
`Ok(())`. -/
def HelloWorldPlugin.on_shutdown (p : HelloWorldPlugin) (ctx : AppContext) :
    HelloWorldPlugin × AppContext × Except String Unit :=
  (p, ctx, Except.ok ())

/-- One activate-then-deactivate cycle, threading plugin and context. -/
def HelloWorldPlugin.cycle (pc : HelloWorldPlugin × AppContext) :
    HelloWorldPlugin × AppContext :=
  let a := pc.1.activate pc.2
  let d := a.1.deactivate a.2.1
  (d.1, d.2.1)

/-- `n` activate/deactivate cycles. -/
def HelloWorldPlugin.cycles (n : Nat) (pc : HelloWorldPlugin × AppContext) :
    HelloWorldPlugin × AppContext :=
  match n with
  | 0 => pc
  | Nat.succ m => HelloWorldPlugin.cycles m (HelloWorldPlugin.cycle pc)

/-- The registry carried by a context, empty when the service is absent. -/
def AppContext.registry (ctx : AppContext) : HookRegistry :=
  ctx.hookRegistry.getD HookRegistry.empty

/-- The four entries one `activate` call appends when the registry service is
present, over the activation-time settings snapshot. -/
def HelloWorldPlugin.registeredEntries (p : HelloWorldPlugin) : List HookEntry :=
  [⟨"shortcode_hello", 10, Handler.filter (shortcodeHelloHandler p.settings)⟩,
   ⟨"widget_hello_world", 10, Handler.filter (widgetHelloWorldHandler p.settings)⟩,
   ⟨"wp_head", 10, Handler.action (wpHeadAction p.settings)⟩,
   ⟨"the_content", 99, Handler.filter theContentHandler⟩]

/-- Helper: activating with a registry present appends exactly the four
entries of `registeredEntries` to the carried registry. -/
theorem activate_registry_eq (p : HelloWorldPlugin) (r : HookRegistry) :
    (p.activate ⟨some r⟩).2.1
      = ⟨some ⟨r.entries ++ p.registeredEntries⟩⟩ := by
  simp [HelloWorldPlugin.activate, HelloWorldPlugin.register_shortcodes,
    HelloWorldPlugin.register_widgets, HelloWorldPlugin.add_head_css,
    HelloWorldPlugin.add_content_filter, HookRegistry.add_filter,
    HookRegistry.add_action, HelloWorldPlugin.registeredEntries]

/-- C3: a freshly constructed plugin reports state `Inactive`; after
`activate` returns (it always succeeds), the state is `Active`; after
`deactivate`, the state is `Inactive` — for every plugin value and context,
hence for every sequence of these calls, re-activation included. -/
theorem lifecycle_state_machine (p : HelloWorldPlugin) (ctx : AppContext) :
    HelloWorldPlugin.new.state = PluginState.Inactive
    ∧ (p.activate ctx).1.state = PluginState.Active
    ∧ (p.deactivate ctx).1.state = PluginState.Inactive :=
  ⟨rfl, rfl, rfl⟩

/-- C3 witness: the three state transitions evaluated on the freshly
constructed plugin and a context carrying an empty registry. -/
theorem lifecycle_state_machine_witness :
    HelloWorldPlugin.new.state = PluginState.Inactive
    ∧ (HelloWorldPlugin.new.activate ⟨some HookRegistry.empty⟩).1.state
        = PluginState.Active
    ∧ (HelloWorldPlugin.new.deactivate ⟨some HookRegistry.empty⟩).1.state
        = PluginState.Inactive :=
  lifecycle_state_machine HelloWorldPlugin.new ⟨some HookRegistry.empty⟩

/-- C4: activation is all-or-nothing — on every input, `activate` either
returns success, or leaves the plugin and the context (hence the registry)
exactly as they were.  In fact the left disjunct always holds: `activate`
cannot fail, so no failing run can leave partial registration behind. -/
theorem activate_atomicity (p : HelloWorldPlugin) (ctx : AppContext) :
    (p.activate ctx).2.2 = Except.ok ()
    ∨ ((p.activate ctx).1 = p ∧ (p.activate ctx).2.1 = ctx) :=
  Or.inl rfl

/-- C5: settings round-trip — `update_settings S` followed by `settings()`
(the field read, returning an independent copy) yields exactly `S`. -/
theorem settings_round_trip (p : HelloWorldPlugin) (S : HelloWorldSettings) :
    (p.update_settings S).settings = S :=
  rfl

/-- C6: the default settings value, and the settings of a freshly constructed
plugin, both equal `{greeting_text := "Hello, World!", show_date := true,
custom_css := ""}`. -/
theorem default_settings_values :
    HelloWorldSettings.default
        = { greeting_text := "Hello, World!", show_date := true, custom_css := "" }
    ∧ HelloWorldPlugin.new.settings
        = { greeting_text := "Hello, World!", show_date := true, custom_css := "" } :=
  ⟨rfl, rfl⟩

/-- C7: when the context carries no hook-registry service, `activate` skips
registration entirely, still succeeds, transitions the plugin to `Active`,
and leaves the context untouched. -/
theorem activate_without_registry (p : HelloWorldPlugin) :
    p.activate ⟨none⟩
      = ({ p with state := PluginState.Active }, ⟨none⟩, Except.ok ()) :=
  rfl

/-- C10: `update_settings` changes neither the lifecycle state nor the plugin
info; `on_startup`, `on_shutdown` and `deactivate` always return success, and
all three leave the info and the stored settings unchanged — for every
reachable plugin value and context. -/
theorem non_settings_frame (p : HelloWorldPlugin) (S : HelloWorldSettings)
    (ctx : AppContext) :
    (p.update_settings S).state = p.state
    ∧ (p.update_settings S).info = p.info
    ∧ p.on_startup ctx = (p, ctx, Except.ok ())
    ∧ p.on_shutdown ctx = (p, ctx, Except.ok ())
    ∧ (p.deactivate ctx).2.2 = Except.ok ()
    ∧ (p.deactivate ctx).1.info = p.info
    ∧ (p.deactivate ctx).1.settings = p.settings :=
  ⟨rfl, rfl, rfl, rfl, rfl, rfl, rfl⟩

/-- Helper: one activate/deactivate cycle starting from a context carrying a
registry ends `Inactive` with the same info and settings, and the registry has
gained exactly the four entries of that activation. -/
theorem cycle_eq (p : HelloWorldPlugin) (r : HookRegistry) :
    HelloWorldPlugin.cycle (p, ⟨some r⟩)
      = ({ p with state := PluginState.Inactive },
         ⟨some ⟨r.entries ++ p.registeredEntries⟩⟩) := by
  have h := activate_registry_eq p r
  simp only [HelloWorldPlugin.cycle, HelloWorldPlugin.deactivate]
  rw [h]
  rfl

/-- Helper: after `n` activate/deactivate cycles the registry holds the
original entries plus `4 * n` accumulated ones. -/
theorem cycles_length (n : Nat) (p : HelloWorldPlugin) (r : HookRegistry) :
    ((HelloWorldPlugin.cycles n (p, ⟨some r⟩)).2.registry.entries.length
      = r.entries.length + 4 * n) := by
  induction n generalizing p r with
  | zero => simp [HelloWorldPlugin.cycles, AppContext.registry]
  | succ m ih =>
      rw [HelloWorldPlugin.cycles, cycle_eq]
      rw [ih]
      simp [HelloWorldPlugin.registeredEntries]
      ring

/-- C8: `deactivate` leaves the context, hence the Hook Registry, completely
unchanged; each `activate` with a registry present appends exactly the four
entries captured in `registeredEntries` (so four entries per activation); and
after `n` activate/deactivate cycles the registry holds `4 * n` entries on top
of what it started with. -/
theorem handler_accumulation (p : HelloWorldPlugin) (ctx : AppContext)
    (r : HookRegistry) (n : Nat) :
    (p.deactivate ctx).2.1 = ctx
    ∧ (p.activate ⟨some r⟩).2.1.registry.entries
        = r.entries ++ p.registeredEntries
    ∧ p.registeredEntries.length = 4
    ∧ (HelloWorldPlugin.cycles n (p, ⟨some r⟩)).2.registry.entries.length
        = r.entries.length + 4 * n := by
  refine ⟨rfl, ?_, rfl, cycles_length n p r⟩
  rw [activate_registry_eq]
  rfl

/-- C9: every activation registers, in order, the `shortcode_hello` filter at
priority 10, the `widget_hello_world` filter at priority 10, the `wp_head`
action at priority 10 and the `the_content` filter at priority 99; dispatch
(`apply_filters` / `run_action`) sorts ascending by priority, so under the
lower-runs-earlier convention the priority-99 footer filter runs last. -/
theorem priority_convention (p : HelloWorldPlugin) (r : HookRegistry) :
    (p.activate ⟨some r⟩).2.1.registry.entries.map HookEntry.key
      = r.entries.map HookEntry.key
        ++ [("shortcode_hello", 10, true),
            ("widget_hello_world", 10, true),
            ("wp_head", 10, false),
            ("the_content", 99, true)] := by
  rw [activate_registry_eq]
  simp [AppContext.registry, HelloWorldPlugin.registeredEntries, HookEntry.key,
    Handler.isFilter]

/-- C1: snapshot isolation — activating over an empty registry registers
handlers over the activation-time settings snapshot; a later
`update_settings S2` (for an arbitrary, hence possibly different, `S2`)
leaves the dispatch output of the already-registered `shortcode_hello` and
`widget_hello_world` filters exactly the rendering of the captured snapshot
`p.settings`, independent of `S2`; only re-activation registers a handler
that renders `S2`. -/
theorem snapshot_isolation (p : HelloWorldPlugin) (S2 : HelloWorldSettings)
    (now c : String) :
    ((p.activate ⟨some HookRegistry.empty⟩).1.update_settings S2).settings = S2
    ∧ (p.activate ⟨some HookRegistry.empty⟩).2.1.registry.apply_filters
        "shortcode_hello" now c
      = shortcodeHelloHandler p.settings now c
    ∧ (p.activate ⟨some HookRegistry.empty⟩).2.1.registry.apply_filters
        "widget_hello_world" now c
      = widgetHelloWorldHandler p.settings now c
    ∧ (((p.activate ⟨some HookRegistry.empty⟩).1.update_settings S2).activate
          ⟨some HookRegistry.empty⟩).2.1.registry.apply_filters
        "widget_hello_world" now c
      = widgetHelloWorldHandler S2 now c := by
  refine ⟨rfl, ?_, ?_, ?_⟩ <;>
    rw [activate_registry_eq] <;>
    simp [HookRegistry.apply_filters, AppContext.registry, HookRegistry.empty,
      HelloWorldPlugin.registeredEntries, Handler.isFilter, List.filter,
      HelloWorldPlugin.update_settings]

/-- C2 evidence: with the fresh plugin activated over an empty registry,
`deactivate` leaves all four registered entries in place and the registry
still dispatches `widget_hello_world` through the plugin's handler, whose
output differs from the untouched input — so `deactivate` does not unregister
the handlers `activate` registered. -/
theorem deactivate_keeps_dispatching :
    ((HelloWorldPlugin.new.activate ⟨some HookRegistry.empty⟩).1.deactivate
        (HelloWorldPlugin.new.activate
          ⟨some HookRegistry.empty⟩).2.1).2.1.registry.entries.length = 4
    ∧ ((HelloWorldPlugin.new.activate ⟨some HookRegistry.empty⟩).1.deactivate
        (HelloWorldPlugin.new.activate
          ⟨some HookRegistry.empty⟩).2.1).2.1.registry.apply_filters
        "widget_hello_world" "October 12, 2025" ""
      = widgetHelloWorldHandler HelloWorldSettings.default "October 12, 2025" ""
    ∧ widgetHelloWorldHandler HelloWorldSettings.default "October 12, 2025" ""
        ≠ "" := by
  refine ⟨rfl, ?_, by decide⟩
  show (HelloWorldPlugin.new.activate
      ⟨some HookRegistry.empty⟩).2.1.registry.apply_filters
      "widget_hello_world" "October 12, 2025" "" = _
  rw [activate_registry_eq]
  simp [HookRegistry.apply_filters, AppContext.registry, HookRegistry.empty,
    HelloWorldPlugin.registeredEntries, Handler.isFilter, List.filter,
    HelloWorldPlugin.new]
